import Mathlib

/-!
# BillboardRayTracer render pass: control logic

A shallow embedding of `Source/RenderPasses/BillboardRayTracer/BillboardRayTracer.cpp`:
the pass state, `setScene`, `prepareVars` and `execute`, written as explicit state
passing.  Calls into the rendering framework (`asTexture` on frame resources,
texture clears, variable-set creation, ray dispatch, frame-rate reset) are
recorded as a list of events.  Answers that only
the framework can give (does shader compilation succeed, can the sample generator
bind its data) are inputs of the frame.

Unsigned 32-bit members are natural numbers reduced modulo `2 ^ 32`.
-/

namespace BillboardRayTracer

/-! ## Framework data the pass works with -/

/-- Modelled from the spec: `Program::DefineList` is a framework class whose code is
not part of the pass source.  The spec describes defines as "additive,
last-write-wins per key", so a define list is kept as the sequence of writes made
to it and a lookup returns the most recent write for the key. -/
structure DefineList where
  entries : List (String × String)
deriving DecidableEq, Repr

namespace DefineList

/-- The define list without any entry (a default-constructed `DefineList`). -/
def empty : DefineList := ⟨[]⟩

/-- Single write `defines.add(name, value)`: the key now maps to `value`. -/
def add (d : DefineList) (name value : String) : DefineList :=
  ⟨d.entries ++ [(name, value)]⟩

/-- Merge `defines.add(other)`: every pair of `other` is written in turn. -/
def addList (d other : DefineList) : DefineList :=
  other.entries.foldl (fun acc kv => acc.add kv.1 kv.2) d

/-- Value currently held for `name`: the last write wins. -/
def get? (d : DefineList) (name : String) : Option String :=
  (d.entries.reverse.find? (fun kv => kv.1 == name)).map Prod.snd

/-- Whether the list defines `name`. -/
def contains (d : DefineList) (name : String) : Bool :=
  (d.get? name).isSome

end DefineList

/-- A texture handle. -/
structure Texture where
  id : Nat
deriving DecidableEq, Repr

/-- A frame resource: a texture, or a resource of another kind. -/
inductive Resource where
  | texture (t : Texture)
  | buffer (id : Nat)
deriving DecidableEq, Repr

/-- Modelled from the spec: `Resource::asTexture` belongs to the framework.  The
pass applies it to whatever the resource table returns, and the spec treats an
unbound resource as "not an error" and "silently skipped", so an absent resource
yields an absent texture; a resource that is not a texture yields none either. -/
def asTexture : Option Resource → Option Texture
  | some (Resource.texture t) => some t
  | _ => none

/-- One channel of a `ChannelList`: `name` is the render-graph resource name and
`texname` the shader variable it is bound to. -/
structure ChannelDesc where
  name : String
  texname : String
  desc : String
  optional : Bool := false
deriving DecidableEq, Repr

/-- A `ChannelList` is an ordered list of channel descriptors. -/
abbrev ChannelList := List ChannelDesc

/-- Input channels of the pass: none. -/
def kInputChannels : ChannelList := []

/-- Output channels of the pass: `color` and `debug`. -/
def kOutputChannels : ChannelList :=
  [ { name := "color", texname := "gOutputColor",
      desc := "Output color (sum of direct and indirect)" },
    { name := "debug", texname := "gDebug", desc := "Debug information" } ]

/-- The `RenderPassRefreshFlags` bit set, one boolean per flag. -/
structure RenderPassRefreshFlags where
  lightingChanged : Bool
  renderOptionsChanged : Bool
deriving DecidableEq, Repr

/-- The flag value `RenderPassRefreshFlags::None`. -/
def RenderPassRefreshFlags.None : RenderPassRefreshFlags := ⟨false, false⟩

/-- What the scene collaborator tells the pass. -/
structure Scene where
  materialCount : Nat
  proceduralPrimitiveCount : Nat
  useEmissiveLights : Bool
  sceneDefines : DefineList
deriving DecidableEq, Repr

/-- The accessor `Scene::getMaterialCount()`, which returns a `uint32_t`. -/
def Scene.getMaterialCount (s : Scene) : Nat := s.materialCount % 2 ^ 32

/-- Subtraction of two `uint32_t` values (both below `2 ^ 32`): the difference
modulo `2 ^ 32`, so it wraps around below zero. -/
def uint32Sub (a b : Nat) : Nat := if b ≤ a then a - b else 2 ^ 32 - (b - a)

/-- The accessor `Scene::getSceneDefines()`. -/
def Scene.getSceneDefines (s : Scene) : DefineList := s.sceneDefines

/-- The GPU sample generator owned by the pass; only its defines matter here. -/
structure SampleGenerator where
  defines : DefineList
deriving DecidableEq, Repr

/-- The accessor `SampleGenerator::getDefines()`. -/
def SampleGenerator.getDefines (g : SampleGenerator) : DefineList := g.defines

/-- The ray tracing program; its define set is mutable. -/
structure RtProgram where
  defines : DefineList
deriving DecidableEq, Repr

/-- The call `pProgram->addDefines(defines)`: merge, existing keys overwritten. -/
def RtProgram.addDefines (prog : RtProgram) (d : DefineList) : RtProgram :=
  ⟨prog.defines.addList d⟩

/-- The variable set `RtProgramVars`: the scene it was created for, the constant
`CB.gFrameCount`, the textures assigned to shader variables (as a write log) and
whether the sample generator has bound its data. -/
structure RtProgramVars where
  scene : Scene
  gFrameCount : Option Nat
  textures : List (String × Option Texture)
  sampleGeneratorBound : Bool
deriving DecidableEq, Repr

/-- The result of `RtProgramVars::create(pProgram, pScene)` when it succeeds. -/
def RtProgramVars.create (scene : Scene) : RtProgramVars :=
  { scene := scene, gFrameCount := none, textures := [], sampleGeneratorBound := false }

/-- The member `mTracer`: the program and its (possibly absent) variable set. -/
structure Tracer where
  pProgram : RtProgram
  pVars : Option RtProgramVars
deriving DecidableEq, Repr

/-- The per-frame `RenderData`: the resource table, the default texture
dimensions and the refresh-flags entry of the frame dictionary (absent when the
dictionary has no such key). -/
structure RenderData where
  resources : List (String × Resource)
  defaultTextureDims : Nat × Nat
  refreshFlags : Option RenderPassRefreshFlags
deriving DecidableEq, Repr

/-- The lookup `renderData[name]`: the resource, or none when nothing is bound. -/
def RenderData.getResource (rd : RenderData) (name : String) : Option Resource :=
  (rd.resources.find? (fun e => e.1 == name)).map Prod.snd

/-- One frame as seen by `execute`: the render data plus what the framework
answers during this call.  `createVarsOk` tells whether `RtProgramVars::create`
returns a variable set (it throws when shader compilation fails), and
`setShaderDataOk` is the result of `SampleGenerator::setShaderData`. -/
structure Frame where
  renderData : RenderData
  createVarsOk : Bool
  setShaderDataOk : Bool
deriving DecidableEq, Repr

/-- Framework helper `getValidResourceDefines(channels, renderData)` from
`RenderPassHelpers.h`, not part of the pass source: kept as a parameter. -/
structure Helpers where
  getValidResourceDefines : ChannelList → RenderData → DefineList

/-- Calls into the framework made by the pass.  `asTexture name resource` is the
call `renderData[name]->asTexture()`, recorded with the resource it is invoked
on (none when the resource table has nothing for `name`). -/
inductive Event where
  | clearTexture (t : Texture)
  | asTexture (name : String) (resource : Option Resource)
  | getLightCollection
  | createVars (scene : Scene)
  | raytrace (defines : DefineList) (vars : RtProgramVars) (dim : Nat × Nat × Nat)
  | frameRateReset
deriving DecidableEq, Repr

/-- How a call ended. -/
inductive Outcome where
  | returned
  | assertionFailed
  | exception (what : String)
deriving DecidableEq, Repr

/-! ## The pass -/

/-- The members of `BillboardRayTracer` used by the control logic.  The unsigned
members `mFootprintMode`, `mLastMaterialId` and `mFrameCount` are 32-bit (`uint`);
the operations below keep them reduced modulo `2 ^ 32`.  The sample count is an
integer whose decimal text is what `std::to_string` prints. -/
structure Pass where
  mFootprintMode : Nat
  mReflectionCorrection : Bool
  mRefractionCorrection : Bool
  mShadows : Bool
  mRandomColors : Bool
  mDeepBillboardSamples : Int
  mLastMaterialId : Nat
  mOptionsChanged : Bool
  mFrameCount : Nat
  mpScene : Option Scene
  mpSampleGenerator : SampleGenerator
  mTracer : Tracer
deriving DecidableEq, Repr

/-- What `execute` leaves behind: the pass, the refresh-flags entry of the frame
dictionary, the framework calls made and how the call ended. -/
structure ExecResult where
  pass : Pass
  refreshFlags : Option RenderPassRefreshFlags
  events : List Event
  outcome : Outcome
deriving DecidableEq, Repr

/-- The text used for a boolean define. -/
def boolDefine (b : Bool) : String := if b then "true" else "false"

/-- The local `defines` built by `execute` when options changed (lines 132-145).
The local `nBillboards` of line 147 is not used by any define (the line that read
it is commented out in the source) and has no counterpart here. -/
def synthesizeDefines (h : Helpers) (p : Pass) (rd : RenderData) : DefineList :=
  ((DefineList.empty.addList (h.getValidResourceDefines kInputChannels rd)).addList
      (h.getValidResourceDefines kOutputChannels rd))
    |>.add "RAY_FOOTPRINT_MODE" (toString p.mFootprintMode)
    |>.add "RAY_CONE_MODE" "1"
    |>.add "RAY_FOOTPRINT_USE_MATERIAL_ROUGHNESS" "1"
    |>.add "USE_REFLECTION_CORRECTION" (boolDefine p.mReflectionCorrection)
    |>.add "USE_REFRACTION_CORRECTION" (boolDefine p.mRefractionCorrection)
    |>.add "BILLBOARD_MATERIAL_ID" (toString p.mLastMaterialId)
    |>.add "USE_SHADOWS" (boolDefine p.mShadows)
    |>.add "USE_RANDOM_BILLBOARD_COLORS" (boolDefine p.mRandomColors)
    |>.add "BILLBOARD_SHADOW_SAMPLES" (toString p.mDeepBillboardSamples)

/-- First block of `execute` (lines 126-153), pass part: when options changed the
synthesized defines are merged into the program and the flag is cleared. -/
def updateDefines (h : Helpers) (p : Pass) (rd : RenderData) : Pass :=
  if p.mOptionsChanged then
    { p with
      mTracer := { p.mTracer with
        pProgram := p.mTracer.pProgram.addDefines (synthesizeDefines h p rd) }
      mOptionsChanged := false }
  else p

/-- First block of `execute`, dictionary part: when options changed the
refresh-flags entry becomes its old value (default `None`) with
`RenderOptionsChanged` set. -/
def updateRefreshFlags (p : Pass) (rd : RenderData) : Option RenderPassRefreshFlags :=
  if p.mOptionsChanged then
    some { rd.refreshFlags.getD RenderPassRefreshFlags.None with renderOptionsChanged := true }
  else rd.refreshFlags

/-- Body of the loop of the no-scene branch for one output channel (lines
160-161): `asTexture` is called on the resource of the channel, and the texture
is cleared when the result is not null.  `evs` are the calls made so far. -/
def clearOutput (rd : RenderData) (evs : List Event) (it : ChannelDesc) : List Event :=
  evs ++ Event.asTexture it.name (rd.getResource it.name) ::
    (match asTexture (rd.getResource it.name) with
      | some pDst => [Event.clearTexture pDst]
      | none => [])

/-- The loop of the no-scene branch over the output channels. -/
def clearOutputs (rd : RenderData) : List Event :=
  kOutputChannels.foldl (clearOutput rd) []

/-- The lambda `bind` of `execute` (lines 182-189), on the variable set and the
calls made so far: for a channel whose shader variable name is not empty,
`asTexture` is called on the resource of the channel, with no test whether the
resource is there, and the result is assigned to the shader variable; a channel
with an empty shader variable name is left alone. -/
def bind (rd : RenderData) (st : RtProgramVars × List Event) (desc : ChannelDesc) :
    RtProgramVars × List Event :=
  if desc.texname ≠ "" then
    ({ st.1 with
        textures := st.1.textures ++
          [(desc.texname, asTexture (rd.getResource desc.name))] },
      st.2 ++ [Event.asTexture desc.name (rd.getResource desc.name)])
  else st

/-- The method `prepareVars`: sample generator defines are merged, the variable
set is created and stored, then the sample generator binds its data.  When the
creation throws, nothing is stored; when the sample generator fails to bind, the
exception is thrown after the variable set has been stored.  The first branch
is `assert(mpScene)`. -/
def prepareVars (p : Pass) (f : Frame) : Pass × List Event × Outcome :=
  match p.mpScene with
  | none => (p, [], Outcome.assertionFailed)
  | some scene =>
    let p1 : Pass := { p with
      mTracer := { p.mTracer with
        pProgram := p.mTracer.pProgram.addDefines p.mpSampleGenerator.getDefines } }
    if f.createVarsOk then
      let p2 : Pass := { p1 with
        mTracer := { p1.mTracer with pVars := some (RtProgramVars.create scene) } }
      if f.setShaderDataOk then
        ({ p2 with
            mTracer := { p2.mTracer with
              pVars := some { RtProgramVars.create scene with sampleGeneratorBound := true } } },
          [Event.createVars scene], Outcome.returned)
      else
        (p2, [Event.createVars scene], Outcome.exception "Failed to bind sample generator")
    else
      (p1, [Event.createVars scene], Outcome.exception "Failed to create program vars")

/-- The step `if (!mTracer.pVars) prepareVars();` of `execute`. -/
def ensureVars (p : Pass) (f : Frame) : Pass × List Event × Outcome :=
  if p.mTracer.pVars.isNone then prepareVars p f else (p, [], Outcome.returned)

/-- The request for the light collection when emissive lights are enabled. -/
def lightCollectionEvents (scene : Scene) : List Event :=
  if scene.useEmissiveLights then [Event.getLightCollection] else []

/-- The two binding loops of `execute`: inputs first, then outputs.  Returns the
variable set and the `asTexture` calls made. -/
def bindChannels (rd : RenderData) (vars : RtProgramVars) : RtProgramVars × List Event :=
  kOutputChannels.foldl (bind rd) (kInputChannels.foldl (bind rd) (vars, []))

/-- Lines 177-200 of `execute`, reached with a variable set: write the frame
count, bind the channels, check the dispatch size, trace, count the frame. -/
def dispatch (p : Pass) (rd : RenderData) (scene : Scene) (vars : RtProgramVars)
    (evs : List Event) (flags : Option RenderPassRefreshFlags) : ExecResult :=
  let bound := bindChannels rd { vars with gFrameCount := some p.mFrameCount }
  let vars1 := bound.1
  let p1 : Pass := { p with mTracer := { p.mTracer with pVars := some vars1 } }
  let targetDim := rd.defaultTextureDims
  if 0 < targetDim.1 ∧ 0 < targetDim.2 then
    { pass := { p1 with mFrameCount := (p1.mFrameCount + 1) % 2 ^ 32 }
      refreshFlags := flags
      events := lightCollectionEvents scene ++ evs ++ bound.2 ++
        [Event.raytrace p1.mTracer.pProgram.defines vars1 (targetDim.1, targetDim.2, 1)]
      outcome := Outcome.returned }
  else
    { pass := p1, refreshFlags := flags,
      events := lightCollectionEvents scene ++ evs ++ bound.2,
      outcome := Outcome.assertionFailed }

/-- Lines 166-200 of `execute`, the part run when a scene is bound: light
collection request, variable-set preparation, `assert(mTracer.pVars)`, dispatch. -/
def executeScene (q : Pass) (f : Frame) (scene : Scene)
    (flags : Option RenderPassRefreshFlags) : ExecResult :=
  match (ensureVars q f).2.2 with
  | Outcome.returned =>
    match (ensureVars q f).1.mTracer.pVars with
    | none =>
      { pass := (ensureVars q f).1, refreshFlags := flags,
        events := lightCollectionEvents scene ++ (ensureVars q f).2.1,
        outcome := Outcome.assertionFailed }
    | some vars => dispatch (ensureVars q f).1 f.renderData scene vars (ensureVars q f).2.1 flags
  | oc =>
    { pass := (ensureVars q f).1, refreshFlags := flags,
      events := lightCollectionEvents scene ++ (ensureVars q f).2.1, outcome := oc }

/-- The method `execute`. -/
def execute (h : Helpers) (p : Pass) (f : Frame) : ExecResult :=
  let rd := f.renderData
  let flags := updateRefreshFlags p rd
  let p1 := updateDefines h p rd
  match p1.mpScene with
  | none =>
    { pass := p1, refreshFlags := flags, events := clearOutputs rd,
      outcome := Outcome.returned }
  | some scene => executeScene p1 f scene flags

/-- The method `setScene`; the event is the reset of the framework frame rate. -/
def setScene (p : Pass) (pScene : Option Scene) : Pass × List Event :=
  let p1 : Pass := { p with
    mTracer := { p.mTracer with pVars := none }
    mFrameCount := 0
    mpScene := pScene }
  let p2 : Pass :=
    match pScene with
    | some s =>
      { p1 with
        mLastMaterialId := uint32Sub s.getMaterialCount 1
        mTracer := { p1.mTracer with
          pProgram := p1.mTracer.pProgram.addDefines s.getSceneDefines } }
    | none => p1
  ({ p2 with mOptionsChanged := true }, [Event.frameRateReset])

/-- The method `reflect`, pass part: options are marked as changed. -/
def reflect (p : Pass) : Pass := { p with mOptionsChanged := true }

/-- Consecutive `execute` calls, one per frame, each on the pass left by the
previous one; returns the final pass and the result of every call. -/
def executeAll (h : Helpers) : Pass → List Frame → Pass × List ExecResult
  | p, [] => (p, [])
  | p, f :: fs =>
    let r := execute h p f
    let rest := executeAll h r.pass fs
    (rest.1, r :: rest.2)

/-- Whether an event is a ray dispatch. -/
def Event.isRaytrace : Event → Bool
  | Event.raytrace _ _ _ => true
  | _ => false

/-- Whether an event is a variable-set creation (one per run of `prepareVars`). -/
def Event.isCreateVars : Event → Bool
  | Event.createVars _ => true
  | _ => false

/-- A whole run of the pass after some initial `execute` calls: a list of
segments, each a `setScene` call followed by consecutive `execute` calls.  Returns,
per segment, the scene argument and the results of its `execute` calls. -/
def runSegments (h : Helpers) :
    Pass → List (Option Scene × List Frame) → List (Option Scene × List ExecResult)
  | _, [] => []
  | p, seg :: rest =>
    let r := executeAll h (setScene p seg.1).1 seg.2
    (seg.1, r.2) :: runSegments h r.1 rest

/-- Number of variable-set builds (runs of `prepareVars`) in one `execute` call. -/
def buildCount (r : ExecResult) : Nat := (r.events.filter Event.isCreateVars).length

/-- The pass as `prepareVars` stores it once the variable set is created;
`bound` tells whether the sample generator has bound its data. -/
def builtPass (q : Pass) (scene : Scene) (bound : Bool) : Pass :=
  { q with
    mTracer :=
      { pProgram := q.mTracer.pProgram.addDefines q.mpSampleGenerator.getDefines
        pVars := some { RtProgramVars.create scene with sampleGeneratorBound := bound } } }

/-- The texture assignments made by the binding loops in one frame. -/
def frameBindings (rd : RenderData) : List (String × Option Texture) :=
  ((kInputChannels ++ kOutputChannels).filter (fun c => decide (c.texname ≠ ""))).map
    (fun c => (c.texname, asTexture (rd.getResource c.name)))

/-- The `asTexture` calls made by the binding loops in one frame. -/
def frameBindCalls (rd : RenderData) : List Event :=
  ((kInputChannels ++ kOutputChannels).filter (fun c => decide (c.texname ≠ ""))).map
    (fun c => Event.asTexture c.name (rd.getResource c.name))

/-- The texture a shader variable is currently bound to in a variable set: the
last assignment made to it; none when it was never assigned, `some none` when
the absent (null) texture was assigned. -/
def RtProgramVars.boundTexture (v : RtProgramVars) (texname : String) :
    Option (Option Texture) :=
  (v.textures.reverse.find? (fun e => e.1 == texname)).map Prod.snd

/-- The keys written by the option part of the define synthesis. -/
def optionDefineKeys : List String :=
  ["RAY_FOOTPRINT_MODE", "RAY_CONE_MODE", "RAY_FOOTPRINT_USE_MATERIAL_ROUGHNESS",
   "USE_REFLECTION_CORRECTION", "USE_REFRACTION_CORRECTION", "USE_SHADOWS",
   "USE_RANDOM_BILLBOARD_COLORS", "BILLBOARD_SHADOW_SAMPLES"]

/-! ## Concrete data used to evaluate the model -/

/-- A helper instance: one `is_valid_<texname>` define per optional channel that
has a shader variable, "1" when its resource is bound and "0" otherwise. -/
def exampleHelpers : Helpers where
  getValidResourceDefines := fun channels rd =>
    channels.foldl
      (fun acc c =>
        if c.optional && c.texname != "" then
          acc.add ("is_valid_" ++ c.texname)
            (if (rd.getResource c.name).isSome then "1" else "0")
        else acc)
      DefineList.empty

/-- A scene with three materials and five procedural primitives. -/
def exampleScene : Scene :=
  { materialCount := 3, proceduralPrimitiveCount := 5, useEmissiveLights := true,
    sceneDefines := ⟨[("MATERIAL_COUNT", "3")]⟩ }

/-- A pass with default options, no scene, no variable set. -/
def examplePass : Pass :=
  { mFootprintMode := 3, mReflectionCorrection := true, mRefractionCorrection := true,
    mShadows := true, mRandomColors := false, mDeepBillboardSamples := 1,
    mLastMaterialId := 0, mOptionsChanged := true, mFrameCount := 0, mpScene := none,
    mpSampleGenerator := ⟨⟨[("SAMPLE_GENERATOR_TYPE", "1")]⟩⟩,
    mTracer := { pProgram := ⟨DefineList.empty⟩, pVars := none } }

/-- A frame with both outputs bound to textures, a 4 x 2 target, and a framework
that compiles and binds without trouble. -/
def exampleFrame : Frame :=
  { renderData :=
      { resources := [("color", Resource.texture ⟨10⟩), ("debug", Resource.texture ⟨11⟩)],
        defaultTextureDims := (4, 2), refreshFlags := none },
    createVarsOk := true, setShaderDataOk := true }

/-- The same frame with no resource for the `debug` channel. -/
def frameWithoutDebug : Frame :=
  { exampleFrame with
    renderData := { exampleFrame.renderData with
      resources := [("color", Resource.texture ⟨10⟩)] } }

/-- The same frame in which the sample generator fails to bind its data. -/
def frameBindFails : Frame := { exampleFrame with setShaderDataOk := false }

/-- The variable set as one frame leaves it: frame count written, channels bound. -/
def frameVars (rd : RenderData) (v : RtProgramVars) (count : Nat) : RtProgramVars :=
  { v with gFrameCount := some count, textures := v.textures ++ frameBindings rd }

/-- The variable set a call starts from: the stored one, or the one `prepareVars`
builds for the scene. -/
def startVars (p : Pass) (s : Scene) : RtProgramVars :=
  match p.mTracer.pVars with
  | some v => v
  | none => { RtProgramVars.create s with sampleGeneratorBound := true }

/-- The build events of a call: one creation when the variable set is absent. -/
def buildEvents (p : Pass) (s : Scene) : List Event :=
  match p.mTracer.pVars with
  | some _ => []
  | none => [Event.createVars s]

/-! ## Lemmas on define lists -/

theorem uint32Sub_eq_mod (a b : Nat) (ha : a < 2 ^ 32) (hb : b < 2 ^ 32) :
    uint32Sub a b = (a + 2 ^ 32 - b) % 2 ^ 32 := by
  unfold uint32Sub
  split <;> omega

theorem DefineList.entries_addList (d o : DefineList) :
    (d.addList o).entries = d.entries ++ o.entries := by
  obtain ⟨os⟩ := o
  induction os generalizing d with
  | nil => simp [DefineList.addList]
  | cons kv rest ih =>
    have := ih (d.add kv.1 kv.2)
    simp only [DefineList.addList, List.foldl_cons] at this ⊢
    rw [this]
    simp [DefineList.add]

theorem DefineList.get?_add_self (d : DefineList) (k v : String) :
    (d.add k v).get? k = some v := by
  simp [DefineList.get?, DefineList.add]

theorem DefineList.get?_add_of_ne (d : DefineList) (k k2 v : String) (hne : k2 ≠ k) :
    (d.add k2 v).get? k = d.get? k := by
  simp [DefineList.get?, DefineList.add, List.find?_cons, hne]

theorem DefineList.get?_add (d : DefineList) (k k2 v : String) :
    (d.add k2 v).get? k = if k2 = k then some v else d.get? k := by
  by_cases hk : k2 = k
  · subst hk; simp [DefineList.get?_add_self]
  · simp [hk, DefineList.get?_add_of_ne]

theorem DefineList.get?_addList_of_none (d o : DefineList) (k : String)
    (hk : o.get? k = none) : (d.addList o).get? k = d.get? k := by
  simp only [DefineList.get?, DefineList.entries_addList, List.reverse_append,
    List.find?_append] at hk ⊢
  simp only [Option.map_eq_none'] at hk
  rw [hk]
  simp

theorem DefineList.get?_addList_of_some (d o : DefineList) (k v : String)
    (hk : o.get? k = some v) : (d.addList o).get? k = some v := by
  simp only [DefineList.get?, DefineList.entries_addList, List.reverse_append,
    List.find?_append] at hk ⊢
  cases hf : List.find? (fun kv => kv.1 == k) o.entries.reverse with
  | none => rw [hf] at hk; simp at hk
  | some x => rw [hf] at hk; simpa using hk

/-! ## Lemmas on the steps of `execute` -/

theorem updateDefines_mpScene (h : Helpers) (p : Pass) (rd : RenderData) :
    (updateDefines h p rd).mpScene = p.mpScene := by
  unfold updateDefines; split <;> rfl

theorem updateDefines_pVars (h : Helpers) (p : Pass) (rd : RenderData) :
    (updateDefines h p rd).mTracer.pVars = p.mTracer.pVars := by
  unfold updateDefines; split <;> rfl

theorem updateDefines_mFrameCount (h : Helpers) (p : Pass) (rd : RenderData) :
    (updateDefines h p rd).mFrameCount = p.mFrameCount := by
  unfold updateDefines; split <;> rfl

theorem updateDefines_mpSampleGenerator (h : Helpers) (p : Pass) (rd : RenderData) :
    (updateDefines h p rd).mpSampleGenerator = p.mpSampleGenerator := by
  unfold updateDefines; split <;> rfl

theorem updateDefines_mOptionsChanged (h : Helpers) (p : Pass) (rd : RenderData) :
    (updateDefines h p rd).mOptionsChanged = false := by
  unfold updateDefines; split
  · rfl
  · simp_all

theorem updateDefines_dirty (h : Helpers) (p : Pass) (rd : RenderData)
    (hd : p.mOptionsChanged = true) :
    (updateDefines h p rd).mTracer.pProgram.defines =
      p.mTracer.pProgram.defines.addList (synthesizeDefines h p rd) := by
  simp [updateDefines, hd, RtProgram.addDefines]

theorem updateDefines_clean (h : Helpers) (p : Pass) (rd : RenderData)
    (hd : p.mOptionsChanged = false) : updateDefines h p rd = p := by
  simp [updateDefines, hd]

theorem bindChannels_eq (rd : RenderData) (v : RtProgramVars) :
    bindChannels rd v =
      ({ v with textures := v.textures ++ frameBindings rd }, frameBindCalls rd) := by
  simp [bindChannels, kInputChannels, kOutputChannels, bind, frameBindings, frameBindCalls]

theorem frameBindCalls_mem (rd : RenderData) (e : Event) (he : e ∈ frameBindCalls rd) :
    ∃ n r, e = Event.asTexture n r := by
  unfold frameBindCalls at he
  rw [List.mem_map] at he
  obtain ⟨c, _, hc⟩ := he
  exact ⟨_, _, hc.symm⟩

theorem frameBindCalls_filter_isRaytrace (rd : RenderData) :
    (frameBindCalls rd).filter Event.isRaytrace = [] := by
  rw [List.filter_eq_nil_iff]
  intro e he
  obtain ⟨n, r, hnr⟩ := frameBindCalls_mem rd e he
  rw [hnr]; simp [Event.isRaytrace]

theorem frameBindCalls_filter_isCreateVars (rd : RenderData) :
    (frameBindCalls rd).filter Event.isCreateVars = [] := by
  rw [List.filter_eq_nil_iff]
  intro e he
  obtain ⟨n, r, hnr⟩ := frameBindCalls_mem rd e he
  rw [hnr]; simp [Event.isCreateVars]

theorem dispatch_ok (q : Pass) (rd : RenderData) (s : Scene) (v : RtProgramVars)
    (evs : List Event) (fl : Option RenderPassRefreshFlags)
    (hx : 0 < rd.defaultTextureDims.1) (hy : 0 < rd.defaultTextureDims.2) :
    dispatch q rd s v evs fl =
      { pass := { q with
          mTracer := { q.mTracer with pVars := some (frameVars rd v q.mFrameCount) }
          mFrameCount := (q.mFrameCount + 1) % 2 ^ 32 }
        refreshFlags := fl
        events := lightCollectionEvents s ++ evs ++ frameBindCalls rd ++
          [Event.raytrace q.mTracer.pProgram.defines (frameVars rd v q.mFrameCount)
            (rd.defaultTextureDims.1, rd.defaultTextureDims.2, 1)]
        outcome := Outcome.returned } := by
  simp [dispatch, hx, hy, bindChannels_eq, frameVars]

theorem dispatch_fail (q : Pass) (rd : RenderData) (s : Scene) (v : RtProgramVars)
    (evs : List Event) (fl : Option RenderPassRefreshFlags)
    (hxy : ¬ (0 < rd.defaultTextureDims.1 ∧ 0 < rd.defaultTextureDims.2)) :
    dispatch q rd s v evs fl =
      { pass := { q with
          mTracer := { q.mTracer with pVars := some (frameVars rd v q.mFrameCount) } }
        refreshFlags := fl
        events := lightCollectionEvents s ++ evs ++ frameBindCalls rd
        outcome := Outcome.assertionFailed } := by
  simp only [dispatch, if_neg hxy, bindChannels_eq, frameVars]

theorem dispatch_returned (q : Pass) (rd : RenderData) (s : Scene) (v : RtProgramVars)
    (evs : List Event) (fl : Option RenderPassRefreshFlags)
    (hr : (dispatch q rd s v evs fl).outcome = Outcome.returned) :
    0 < rd.defaultTextureDims.1 ∧ 0 < rd.defaultTextureDims.2 := by
  by_contra hxy
  rw [dispatch_fail q rd s v evs fl hxy] at hr
  cases hr

theorem dispatch_program (q : Pass) (rd : RenderData) (s : Scene) (v : RtProgramVars)
    (evs : List Event) (fl : Option RenderPassRefreshFlags) :
    (dispatch q rd s v evs fl).pass.mTracer.pProgram = q.mTracer.pProgram ∧
    (dispatch q rd s v evs fl).pass.mOptionsChanged = q.mOptionsChanged ∧
    (dispatch q rd s v evs fl).refreshFlags = fl := by
  by_cases hxy : 0 < rd.defaultTextureDims.1 ∧ 0 < rd.defaultTextureDims.2
  · rw [dispatch_ok q rd s v evs fl hxy.1 hxy.2]; exact ⟨rfl, rfl, rfl⟩
  · rw [dispatch_fail q rd s v evs fl hxy]; exact ⟨rfl, rfl, rfl⟩

theorem ensureVars_ready (q : Pass) (f : Frame) (v : RtProgramVars)
    (hv : q.mTracer.pVars = some v) : ensureVars q f = (q, [], Outcome.returned) := by
  simp [ensureVars, hv]

theorem ensureVars_build (q : Pass) (f : Frame) (s : Scene)
    (hs : q.mpScene = some s) (hv : q.mTracer.pVars = none)
    (hc : f.createVarsOk = true) (hb : f.setShaderDataOk = true) :
    ensureVars q f = (builtPass q s true, [Event.createVars s], Outcome.returned) := by
  simp [ensureVars, hv, prepareVars, hs, hc, hb, builtPass]

theorem ensureVars_bindFails (q : Pass) (f : Frame) (s : Scene)
    (hs : q.mpScene = some s) (hv : q.mTracer.pVars = none)
    (hc : f.createVarsOk = true) (hb : f.setShaderDataOk = false) :
    ensureVars q f = (builtPass q s false, [Event.createVars s],
      Outcome.exception "Failed to bind sample generator") := by
  simp [ensureVars, hv, prepareVars, hs, hc, hb, builtPass, RtProgramVars.create]

theorem ensureVars_createFails (q : Pass) (f : Frame) (s : Scene)
    (hs : q.mpScene = some s) (hv : q.mTracer.pVars = none)
    (hc : f.createVarsOk = false) :
    ensureVars q f =
      ({ q with mTracer := { q.mTracer with
          pProgram := q.mTracer.pProgram.addDefines q.mpSampleGenerator.getDefines } },
        [Event.createVars s], Outcome.exception "Failed to create program vars") := by
  simp [ensureVars, hv, prepareVars, hs, hc]

theorem execute_noScene (h : Helpers) (p : Pass) (f : Frame) (hs : p.mpScene = none) :
    execute h p f =
      { pass := updateDefines h p f.renderData
        refreshFlags := updateRefreshFlags p f.renderData
        events := clearOutputs f.renderData
        outcome := Outcome.returned } := by
  have h1 : (updateDefines h p f.renderData).mpScene = none := by
    rw [updateDefines_mpScene, hs]
  simp only [execute]
  split
  · rfl
  · rename_i s hs2; rw [h1] at hs2; cases hs2

theorem execute_scene (h : Helpers) (p : Pass) (f : Frame) (s : Scene)
    (hs : p.mpScene = some s) :
    execute h p f =
      executeScene (updateDefines h p f.renderData) f s (updateRefreshFlags p f.renderData) := by
  have h1 : (updateDefines h p f.renderData).mpScene = some s := by
    rw [updateDefines_mpScene, hs]
  simp only [execute]
  split
  · rename_i hs2; rw [h1] at hs2; cases hs2
  · rename_i s2 hs2
    rw [h1] at hs2; cases hs2
    rfl

theorem execute_ready (h : Helpers) (p : Pass) (f : Frame) (s : Scene) (v : RtProgramVars)
    (hs : p.mpScene = some s) (hv : p.mTracer.pVars = some v) :
    execute h p f =
      dispatch (updateDefines h p f.renderData) f.renderData s v []
        (updateRefreshFlags p f.renderData) := by
  have h2 : (updateDefines h p f.renderData).mTracer.pVars = some v := by
    rw [updateDefines_pVars, hv]
  rw [execute_scene h p f s hs]
  unfold executeScene
  rw [ensureVars_ready _ f v h2]
  simp only [h2]

theorem execute_build (h : Helpers) (p : Pass) (f : Frame) (s : Scene)
    (hs : p.mpScene = some s) (hv : p.mTracer.pVars = none)
    (hc : f.createVarsOk = true) (hb : f.setShaderDataOk = true) :
    execute h p f =
      dispatch (builtPass (updateDefines h p f.renderData) s true) f.renderData s
        { RtProgramVars.create s with sampleGeneratorBound := true } [Event.createVars s]
        (updateRefreshFlags p f.renderData) := by
  have h1 : (updateDefines h p f.renderData).mpScene = some s := by
    rw [updateDefines_mpScene, hs]
  have h2 : (updateDefines h p f.renderData).mTracer.pVars = none := by
    rw [updateDefines_pVars, hv]
  rw [execute_scene h p f s hs]
  unfold executeScene
  rw [ensureVars_build _ f s h1 h2 hc hb]
  rfl

theorem execute_bindFails (h : Helpers) (p : Pass) (f : Frame) (s : Scene)
    (hs : p.mpScene = some s) (hv : p.mTracer.pVars = none)
    (hc : f.createVarsOk = true) (hb : f.setShaderDataOk = false) :
    execute h p f =
      { pass := builtPass (updateDefines h p f.renderData) s false
        refreshFlags := updateRefreshFlags p f.renderData
        events := lightCollectionEvents s ++ [Event.createVars s]
        outcome := Outcome.exception "Failed to bind sample generator" } := by
  have h1 : (updateDefines h p f.renderData).mpScene = some s := by
    rw [updateDefines_mpScene, hs]
  have h2 : (updateDefines h p f.renderData).mTracer.pVars = none := by
    rw [updateDefines_pVars, hv]
  rw [execute_scene h p f s hs]
  unfold executeScene
  rw [ensureVars_bindFails _ f s h1 h2 hc hb]

theorem execute_createFails (h : Helpers) (p : Pass) (f : Frame) (s : Scene)
    (hs : p.mpScene = some s) (hv : p.mTracer.pVars = none)
    (hc : f.createVarsOk = false) :
    execute h p f =
      { pass := { updateDefines h p f.renderData with
          mTracer := { (updateDefines h p f.renderData).mTracer with
            pProgram := (updateDefines h p f.renderData).mTracer.pProgram.addDefines
              (updateDefines h p f.renderData).mpSampleGenerator.getDefines } }
        refreshFlags := updateRefreshFlags p f.renderData
        events := lightCollectionEvents s ++ [Event.createVars s]
        outcome := Outcome.exception "Failed to create program vars" } := by
  have h1 : (updateDefines h p f.renderData).mpScene = some s := by
    rw [updateDefines_mpScene, hs]
  have h2 : (updateDefines h p f.renderData).mTracer.pVars = none := by
    rw [updateDefines_pVars, hv]
  rw [execute_scene h p f s hs]
  unfold executeScene
  rw [ensureVars_createFails _ f s h1 h2 hc]

theorem clearOutput_mem (rd : RenderData) (it : ChannelDesc) (e : Event) :
    e ∈ clearOutput rd [] it ↔
      e = Event.asTexture it.name (rd.getResource it.name) ∨
      ∃ t, asTexture (rd.getResource it.name) = some t ∧ e = Event.clearTexture t := by
  unfold clearOutput
  cases ht : asTexture (rd.getResource it.name) with
  | none => simp
  | some t => simp

theorem clearOutput_append (rd : RenderData) (acc : List Event) (it : ChannelDesc) :
    clearOutput rd acc it = acc ++ clearOutput rd [] it := by
  simp [clearOutput]

theorem foldl_clearOutput_mem (rd : RenderData) (l : List ChannelDesc) (acc : List Event)
    (e : Event) :
    e ∈ l.foldl (clearOutput rd) acc ↔ e ∈ acc ∨ ∃ it ∈ l, e ∈ clearOutput rd [] it := by
  induction l generalizing acc with
  | nil => simp
  | cons c rest ih =>
    rw [List.foldl_cons, ih, clearOutput_append rd acc c]
    simp only [List.mem_append, List.mem_cons, exists_eq_or_imp]
    tauto

theorem clearOutputs_mem (rd : RenderData) (e : Event) (he : e ∈ clearOutputs rd) :
    (∃ t, e = Event.clearTexture t) ∨ ∃ n r, e = Event.asTexture n r := by
  unfold clearOutputs at he
  rw [foldl_clearOutput_mem] at he
  rcases he with he | ⟨it, _, he⟩
  · cases he
  · rw [clearOutput_mem] at he
    rcases he with he | ⟨t, _, he⟩
    · exact Or.inr ⟨_, _, he⟩
    · exact Or.inl ⟨t, he⟩

theorem clearOutputs_clears (rd : RenderData) (ch : ChannelDesc) (t : Texture)
    (hch : ch ∈ kOutputChannels) (ht : asTexture (rd.getResource ch.name) = some t) :
    Event.clearTexture t ∈ clearOutputs rd := by
  unfold clearOutputs
  rw [foldl_clearOutput_mem]
  exact Or.inr ⟨ch, hch, (clearOutput_mem rd ch _).2 (Or.inr ⟨t, ht, rfl⟩)⟩

theorem clearOutputs_quiet (rd : RenderData) (e : Event) (he : e ∈ clearOutputs rd) :
    e.isCreateVars = false ∧ e.isRaytrace = false := by
  rcases clearOutputs_mem rd e he with ⟨t, ht⟩ | ⟨n, r, hnr⟩
  · rw [ht]; exact ⟨rfl, rfl⟩
  · rw [hnr]; exact ⟨rfl, rfl⟩

theorem lightCollectionEvents_cases (s : Scene) :
    lightCollectionEvents s = [] ∨ lightCollectionEvents s = [Event.getLightCollection] := by
  unfold lightCollectionEvents; split
  · exact Or.inr rfl
  · exact Or.inl rfl

theorem lightCollectionEvents_mem (s : Scene) (e : Event) (he : e ∈ lightCollectionEvents s) :
    e = Event.getLightCollection := by
  rcases lightCollectionEvents_cases s with hl | hl <;> rw [hl] at he <;> simp at he
  exact he

/-! ## The program defines and flags after `execute` -/

theorem execute_mOptionsChanged (h : Helpers) (p : Pass) (f : Frame) :
    (execute h p f).pass.mOptionsChanged = false := by
  cases hs : p.mpScene with
  | none => rw [execute_noScene h p f hs]; exact updateDefines_mOptionsChanged h p _
  | some s =>
    cases hv : p.mTracer.pVars with
    | some v =>
      rw [execute_ready h p f s v hs hv, (dispatch_program _ _ _ _ _ _).2.1]
      exact updateDefines_mOptionsChanged h p _
    | none =>
      cases hc : f.createVarsOk with
      | false =>
        rw [execute_createFails h p f s hs hv hc]
        exact updateDefines_mOptionsChanged h p _
      | true =>
        cases hb : f.setShaderDataOk with
        | false =>
          rw [execute_bindFails h p f s hs hv hc hb]
          exact updateDefines_mOptionsChanged h p _
        | true =>
          rw [execute_build h p f s hs hv hc hb, (dispatch_program _ _ _ _ _ _).2.1]
          exact updateDefines_mOptionsChanged h p _

theorem execute_refreshFlags (h : Helpers) (p : Pass) (f : Frame) :
    (execute h p f).refreshFlags = updateRefreshFlags p f.renderData := by
  cases hs : p.mpScene with
  | none => rw [execute_noScene h p f hs]
  | some s =>
    cases hv : p.mTracer.pVars with
    | some v => rw [execute_ready h p f s v hs hv, (dispatch_program _ _ _ _ _ _).2.2]
    | none =>
      cases hc : f.createVarsOk with
      | false => rw [execute_createFails h p f s hs hv hc]
      | true =>
        cases hb : f.setShaderDataOk with
        | false => rw [execute_bindFails h p f s hs hv hc hb]
        | true => rw [execute_build h p f s hs hv hc hb, (dispatch_program _ _ _ _ _ _).2.2]

/-- After `execute` the program holds the defines left by the define update,
followed by the sample generator defines when `prepareVars` ran. -/
theorem execute_defines (h : Helpers) (p : Pass) (f : Frame) :
    (execute h p f).pass.mTracer.pProgram.defines =
        (updateDefines h p f.renderData).mTracer.pProgram.defines ∨
    (execute h p f).pass.mTracer.pProgram.defines =
        (updateDefines h p f.renderData).mTracer.pProgram.defines.addList
          p.mpSampleGenerator.getDefines := by
  cases hs : p.mpScene with
  | none => rw [execute_noScene h p f hs]; exact Or.inl rfl
  | some s =>
    cases hv : p.mTracer.pVars with
    | some v =>
      rw [execute_ready h p f s v hs hv, (dispatch_program _ _ _ _ _ _).1]
      exact Or.inl rfl
    | none =>
      right
      cases hc : f.createVarsOk with
      | false =>
        rw [execute_createFails h p f s hs hv hc]
        simp [RtProgram.addDefines, updateDefines_mpSampleGenerator]
      | true =>
        cases hb : f.setShaderDataOk with
        | false =>
          rw [execute_bindFails h p f s hs hv hc hb]
          simp [builtPass, RtProgram.addDefines, updateDefines_mpSampleGenerator]
        | true =>
          rw [execute_build h p f s hs hv hc hb, (dispatch_program _ _ _ _ _ _).1]
          simp [builtPass, RtProgram.addDefines, updateDefines_mpSampleGenerator]

theorem execute_get?_of_synth (h : Helpers) (p : Pass) (f : Frame) (k v : String)
    (hd : p.mOptionsChanged = true)
    (hsg : p.mpSampleGenerator.getDefines.get? k = none)
    (hk : (synthesizeDefines h p f.renderData).get? k = some v) :
    (execute h p f).pass.mTracer.pProgram.defines.get? k = some v := by
  have hu : (updateDefines h p f.renderData).mTracer.pProgram.defines.get? k = some v := by
    rw [updateDefines_dirty h p _ hd]
    exact DefineList.get?_addList_of_some _ _ k v hk
  rcases execute_defines h p f with he | he
  · rw [he]; exact hu
  · rw [he, DefineList.get?_addList_of_none _ _ k hsg]; exact hu

/-! ## Properties of the pass -/

/-- C2: with no scene bound and a texture supplied for every output channel,
`execute` clears the texture of every output channel, issues no ray dispatch,
does not build the variable set (no creation call, variable set untouched) and
leaves the frame count unchanged. -/
theorem C2_noScene_clears_outputs (h : Helpers) (p : Pass) (f : Frame)
    (hs : p.mpScene = none)
    (hres : ∀ ch ∈ kOutputChannels, (asTexture (f.renderData.getResource ch.name)).isSome) :
    (∀ ch ∈ kOutputChannels, ∃ t, asTexture (f.renderData.getResource ch.name) = some t ∧
        Event.clearTexture t ∈ (execute h p f).events) ∧
    (∀ e ∈ (execute h p f).events, e.isRaytrace = false) ∧
    (∀ e ∈ (execute h p f).events, e.isCreateVars = false) ∧
    (execute h p f).pass.mTracer.pVars = p.mTracer.pVars ∧
    (execute h p f).pass.mFrameCount = p.mFrameCount ∧
    (execute h p f).outcome = Outcome.returned := by
  rw [execute_noScene h p f hs]
  refine ⟨?_, ?_, ?_, updateDefines_pVars h p _, updateDefines_mFrameCount h p _, rfl⟩
  · intro ch hch
    have hsome := hres ch hch
    cases ht : asTexture (f.renderData.getResource ch.name) with
    | none => rw [ht] at hsome; cases hsome
    | some t => exact ⟨t, rfl, clearOutputs_clears f.renderData ch t hch ht⟩
  · intro e he
    exact (clearOutputs_quiet f.renderData e he).2
  · intro e he
    exact (clearOutputs_quiet f.renderData e he).1

/-- Witness for C2: a pass right after `setScene(absent)`, frame with both outputs
bound. -/
theorem C2_noScene_clears_outputs_witness :
    (∀ ch ∈ kOutputChannels, ∃ t,
        asTexture (exampleFrame.renderData.getResource ch.name) = some t ∧
        Event.clearTexture t ∈
          (execute exampleHelpers (setScene examplePass none).1 exampleFrame).events) ∧
    (∀ e ∈ (execute exampleHelpers (setScene examplePass none).1 exampleFrame).events,
        e.isRaytrace = false) ∧
    (∀ e ∈ (execute exampleHelpers (setScene examplePass none).1 exampleFrame).events,
        e.isCreateVars = false) ∧
    (execute exampleHelpers (setScene examplePass none).1 exampleFrame).pass.mTracer.pVars =
      (setScene examplePass none).1.mTracer.pVars ∧
    (execute exampleHelpers (setScene examplePass none).1 exampleFrame).pass.mFrameCount =
      (setScene examplePass none).1.mFrameCount ∧
    (execute exampleHelpers (setScene examplePass none).1 exampleFrame).outcome =
      Outcome.returned :=
  C2_noScene_clears_outputs exampleHelpers (setScene examplePass none).1 exampleFrame
    (by decide) (by decide)

/-- C3: `setScene` with any argument leaves the variable set absent, the frame
count 0, the options-changed flag set and the bound scene equal to the argument;
calling it twice with the same scene gives frame count 0 and an absent variable
set after each call. -/
theorem C3_setScene_resets (p : Pass) (S : Option Scene) :
    ((setScene p S).1.mTracer.pVars = none ∧
      (setScene p S).1.mFrameCount = 0 ∧
      (setScene p S).1.mOptionsChanged = true ∧
      (setScene p S).1.mpScene = S) ∧
    ∀ s : Scene,
      ((setScene p (some s)).1.mFrameCount = 0 ∧
        (setScene p (some s)).1.mTracer.pVars = none) ∧
      ((setScene (setScene p (some s)).1 (some s)).1.mFrameCount = 0 ∧
        (setScene (setScene p (some s)).1 (some s)).1.mTracer.pVars = none ∧
        (setScene (setScene p (some s)).1 (some s)).1.mpScene = some s) := by
  refine ⟨?_, fun s => ⟨⟨rfl, rfl⟩, rfl, rfl, rfl⟩⟩
  cases S <;> exact ⟨rfl, rfl, rfl, rfl⟩

/-- C4: when the options-changed flag is set at entry, after `execute` the program
defines hold the current option values under the eight option keys, whatever was
there before, and the flag is cleared, whether or not a scene is bound.  The
sample generator (framework code) is assumed not to define any of these keys. -/
theorem C4_dirty_defines_reflect_options (h : Helpers) (p : Pass) (f : Frame)
    (hd : p.mOptionsChanged = true)
    (hsg : ∀ k ∈ optionDefineKeys, p.mpSampleGenerator.getDefines.get? k = none) :
    (execute h p f).pass.mTracer.pProgram.defines.get? "RAY_FOOTPRINT_MODE" =
      some (toString p.mFootprintMode) ∧
    (execute h p f).pass.mTracer.pProgram.defines.get? "RAY_CONE_MODE" = some "1" ∧
    (execute h p f).pass.mTracer.pProgram.defines.get? "RAY_FOOTPRINT_USE_MATERIAL_ROUGHNESS" =
      some "1" ∧
    (execute h p f).pass.mTracer.pProgram.defines.get? "USE_REFLECTION_CORRECTION" =
      some (if p.mReflectionCorrection then "true" else "false") ∧
    (execute h p f).pass.mTracer.pProgram.defines.get? "USE_REFRACTION_CORRECTION" =
      some (if p.mRefractionCorrection then "true" else "false") ∧
    (execute h p f).pass.mTracer.pProgram.defines.get? "USE_SHADOWS" =
      some (if p.mShadows then "true" else "false") ∧
    (execute h p f).pass.mTracer.pProgram.defines.get? "USE_RANDOM_BILLBOARD_COLORS" =
      some (if p.mRandomColors then "true" else "false") ∧
    (execute h p f).pass.mTracer.pProgram.defines.get? "BILLBOARD_SHADOW_SAMPLES" =
      some (toString p.mDeepBillboardSamples) ∧
    (execute h p f).pass.mOptionsChanged = false := by
  refine ⟨?_, ?_, ?_, ?_, ?_, ?_, ?_, ?_, execute_mOptionsChanged h p f⟩ <;>
    refine execute_get?_of_synth h p f _ _ hd (hsg _ (by simp [optionDefineKeys])) ?_ <;>
    simp [synthesizeDefines, DefineList.get?_add, boolDefine]

/-- Witness for C4: shadows switched off on a pass with a scene bound. -/
theorem C4_dirty_defines_reflect_options_witness :
    ({ (setScene examplePass (some exampleScene)).1 with mShadows := false } : Pass).mOptionsChanged
      = true ∧
    (∀ k ∈ optionDefineKeys,
      ({ (setScene examplePass (some exampleScene)).1 with mShadows := false } :
        Pass).mpSampleGenerator.getDefines.get? k = none) ∧
    (execute exampleHelpers
        { (setScene examplePass (some exampleScene)).1 with mShadows := false }
        exampleFrame).pass.mTracer.pProgram.defines.get? "USE_SHADOWS" = some "false" ∧
    (execute exampleHelpers
        { (setScene examplePass (some exampleScene)).1 with mShadows := false }
        exampleFrame).pass.mOptionsChanged = false :=
  have hw := C4_dirty_defines_reflect_options exampleHelpers
    { (setScene examplePass (some exampleScene)).1 with mShadows := false } exampleFrame
    (by decide) (by decide)
  ⟨by decide, by decide, hw.2.2.2.2.2.1, hw.2.2.2.2.2.2.2.2⟩

/-- C5 as stated fails: with no scene bound and the options-changed flag set, the
defines synthesized by `execute` and merged into the program do contain the key
`BILLBOARD_MATERIAL_ID`. -/
theorem C5_counterexample :
    examplePass.mpScene = none ∧ examplePass.mOptionsChanged = true ∧
    (synthesizeDefines exampleHelpers examplePass exampleFrame.renderData).contains
      "BILLBOARD_MATERIAL_ID" = true ∧
    examplePass.mTracer.pProgram.defines.contains "BILLBOARD_MATERIAL_ID" = false ∧
    (execute exampleHelpers examplePass exampleFrame).pass.mTracer.pProgram.defines.contains
      "BILLBOARD_MATERIAL_ID" = true := by
  decide

/-- C5 amended: with the options-changed flag set and no scene bound, the defines
synthesized by `execute` contain `BILLBOARD_MATERIAL_ID` with the decimal text of
the stored `mLastMaterialId`, and after the call the program holds that value. -/
theorem C5_material_id_emitted_without_scene (h : Helpers) (p : Pass) (f : Frame)
    (hs : p.mpScene = none) (hd : p.mOptionsChanged = true) :
    (synthesizeDefines h p f.renderData).get? "BILLBOARD_MATERIAL_ID" =
      some (toString p.mLastMaterialId) ∧
    (synthesizeDefines h p f.renderData).contains "BILLBOARD_MATERIAL_ID" = true ∧
    (execute h p f).pass.mTracer.pProgram.defines =
      p.mTracer.pProgram.defines.addList (synthesizeDefines h p f.renderData) ∧
    (execute h p f).pass.mTracer.pProgram.defines.get? "BILLBOARD_MATERIAL_ID" =
      some (toString p.mLastMaterialId) := by
  have hk : (synthesizeDefines h p f.renderData).get? "BILLBOARD_MATERIAL_ID" =
      some (toString p.mLastMaterialId) := by
    simp [synthesizeDefines, DefineList.get?_add]
  have he : (execute h p f).pass.mTracer.pProgram.defines =
      p.mTracer.pProgram.defines.addList (synthesizeDefines h p f.renderData) := by
    rw [execute_noScene h p f hs]
    exact updateDefines_dirty h p _ hd
  refine ⟨hk, ?_, he, ?_⟩
  · simp [DefineList.contains, hk]
  · rw [he]
    exact DefineList.get?_addList_of_some _ _ _ _ hk

/-- Witness for the amended C5 on the example pass without a scene. -/
theorem C5_material_id_emitted_without_scene_witness :
    examplePass.mpScene = none ∧ examplePass.mOptionsChanged = true ∧
    (execute exampleHelpers examplePass exampleFrame).pass.mTracer.pProgram.defines.get?
      "BILLBOARD_MATERIAL_ID" = some "0" :=
  ⟨rfl, rfl,
    (C5_material_id_emitted_without_scene exampleHelpers examplePass exampleFrame rfl rfl).2.2.2⟩

/-- C10: when the options-changed flag is clear at entry and the variable set is
already built, `execute` leaves the program defines exactly as they were, does
not touch the refresh-flags entry of the frame dictionary, and the flag stays
clear. -/
theorem C10_clean_execute_keeps_defines (h : Helpers) (p : Pass) (f : Frame)
    (v : RtProgramVars)
    (hd : p.mOptionsChanged = false) (hv : p.mTracer.pVars = some v) :
    (execute h p f).pass.mTracer.pProgram.defines = p.mTracer.pProgram.defines ∧
    (execute h p f).refreshFlags = f.renderData.refreshFlags ∧
    (execute h p f).pass.mOptionsChanged = false := by
  refine ⟨?_, ?_, execute_mOptionsChanged h p f⟩
  · cases hs : p.mpScene with
    | none => rw [execute_noScene h p f hs, updateDefines_clean h p _ hd]
    | some s =>
      rw [execute_ready h p f s v hs hv, (dispatch_program _ _ _ _ _ _).1,
        updateDefines_clean h p _ hd]
  · rw [execute_refreshFlags]
    simp [updateRefreshFlags, hd]

/-- Witness for C10: the second frame after a scene was bound, with an option
changed in between without the flag being raised. -/
theorem C10_clean_execute_keeps_defines_witness :
    ({ (execute exampleHelpers (setScene examplePass (some exampleScene)).1 exampleFrame).pass
        with mShadows := false } : Pass).mOptionsChanged = false ∧
    (execute exampleHelpers
      { (execute exampleHelpers (setScene examplePass (some exampleScene)).1 exampleFrame).pass
        with mShadows := false } exampleFrame).pass.mTracer.pProgram.defines.get?
        "USE_SHADOWS" = some "true" ∧
    (execute exampleHelpers
      { (execute exampleHelpers (setScene examplePass (some exampleScene)).1 exampleFrame).pass
        with mShadows := false } exampleFrame).refreshFlags = none :=
  have hw := C10_clean_execute_keeps_defines exampleHelpers
    { (execute exampleHelpers (setScene examplePass (some exampleScene)).1 exampleFrame).pass
        with mShadows := false } exampleFrame
    (frameVars exampleFrame.renderData
      { RtProgramVars.create exampleScene with sampleGeneratorBound := true } 0)
    (by decide) (by decide)
  ⟨by decide, by rw [hw.1]; decide, hw.2.1⟩

/-! ## Successful calls with a scene bound -/

theorem execute_mpScene (h : Helpers) (p : Pass) (f : Frame) :
    (execute h p f).pass.mpScene = p.mpScene := by
  cases hs : p.mpScene with
  | none => rw [execute_noScene h p f hs]; exact (updateDefines_mpScene h p _).trans hs
  | some s =>
    have hu := (updateDefines_mpScene h p f.renderData).trans hs
    cases hv : p.mTracer.pVars with
    | some v =>
      rw [execute_ready h p f s v hs hv]
      by_cases hxy : 0 < f.renderData.defaultTextureDims.1 ∧ 0 < f.renderData.defaultTextureDims.2
      · rw [dispatch_ok _ _ _ _ _ _ hxy.1 hxy.2]; exact hu
      · rw [dispatch_fail _ _ _ _ _ _ hxy]; exact hu
    | none =>
      cases hc : f.createVarsOk with
      | false => rw [execute_createFails h p f s hs hv hc]; exact hu
      | true =>
        cases hb : f.setShaderDataOk with
        | false => rw [execute_bindFails h p f s hs hv hc hb]; exact hu
        | true =>
          rw [execute_build h p f s hs hv hc hb]
          by_cases hxy : 0 < f.renderData.defaultTextureDims.1 ∧
              0 < f.renderData.defaultTextureDims.2
          · rw [dispatch_ok _ _ _ _ _ _ hxy.1 hxy.2]; exact hu
          · rw [dispatch_fail _ _ _ _ _ _ hxy]; exact hu

/-- What a successful `execute` with a bound scene does. -/
theorem execute_returned (h : Helpers) (p : Pass) (f : Frame) (s : Scene)
    (hs : p.mpScene = some s) (hr : (execute h p f).outcome = Outcome.returned) :
    (0 < f.renderData.defaultTextureDims.1 ∧ 0 < f.renderData.defaultTextureDims.2) ∧
    (p.mTracer.pVars = none → f.createVarsOk = true ∧ f.setShaderDataOk = true) ∧
    (execute h p f).pass.mFrameCount = (p.mFrameCount + 1) % 2 ^ 32 ∧
    (execute h p f).pass.mTracer.pVars =
      some (frameVars f.renderData (startVars p s) p.mFrameCount) ∧
    (execute h p f).events = lightCollectionEvents s ++ buildEvents p s ++
      frameBindCalls f.renderData ++
      [Event.raytrace (execute h p f).pass.mTracer.pProgram.defines
        (frameVars f.renderData (startVars p s) p.mFrameCount)
        (f.renderData.defaultTextureDims.1, f.renderData.defaultTextureDims.2, 1)] := by
  cases hv : p.mTracer.pVars with
  | some v =>
    rw [execute_ready h p f s v hs hv] at hr ⊢
    have hxy := dispatch_returned _ _ _ _ _ _ hr
    rw [dispatch_ok _ _ _ _ _ _ hxy.1 hxy.2]
    refine ⟨hxy, (fun hn => by cases hn), ?_, ?_, ?_⟩
    · simp [updateDefines_mFrameCount]
    · simp [updateDefines_mFrameCount, startVars, hv]
    · simp [updateDefines_mFrameCount, startVars, buildEvents, hv]
  | none =>
    cases hc : f.createVarsOk with
    | false => rw [execute_createFails h p f s hs hv hc] at hr; cases hr
    | true =>
      cases hb : f.setShaderDataOk with
      | false => rw [execute_bindFails h p f s hs hv hc hb] at hr; cases hr
      | true =>
        rw [execute_build h p f s hs hv hc hb] at hr ⊢
        have hxy := dispatch_returned _ _ _ _ _ _ hr
        rw [dispatch_ok _ _ _ _ _ _ hxy.1 hxy.2]
        refine ⟨hxy, (fun _ => ⟨rfl, rfl⟩), ?_, ?_, ?_⟩
        · simp [builtPass, updateDefines_mFrameCount]
        · simp [builtPass, updateDefines_mFrameCount, startVars, hv]
        · simp [builtPass, updateDefines_mFrameCount, startVars, buildEvents, hv]

theorem executeAll_length (h : Helpers) (frames : List Frame) (p : Pass) :
    (executeAll h p frames).2.length = frames.length := by
  induction frames generalizing p with
  | nil => rfl
  | cons f fs ih => simp [executeAll, ih]

/-- Frame counting over consecutive successful calls with a scene bound. -/
theorem executeAll_frameCount (h : Helpers) (frames : List Frame) (p : Pass) (s : Scene)
    (hs : p.mpScene = some s) (hc : p.mFrameCount < 2 ^ 32)
    (hok : ∀ r ∈ (executeAll h p frames).2, r.outcome = Outcome.returned) :
    (executeAll h p frames).1.mFrameCount = (p.mFrameCount + frames.length) % 2 ^ 32 ∧
    ∀ k r, (executeAll h p frames).2[k]? = some r →
      ∃ v, r.pass.mTracer.pVars = some v ∧
        v.gFrameCount = some ((p.mFrameCount + k) % 2 ^ 32) ∧
        ∃ d dim, Event.raytrace d v dim ∈ r.events := by
  induction frames generalizing p with
  | nil =>
    refine ⟨?_, ?_⟩
    · show p.mFrameCount = (p.mFrameCount + 0) % 2 ^ 32
      rw [Nat.add_zero, Nat.mod_eq_of_lt hc]
    · intro k r hk; simp [executeAll] at hk
  | cons f fs ih =>
    have hr : (execute h p f).outcome = Outcome.returned :=
      hok _ (by simp [executeAll])
    obtain ⟨_, _, hcount, hvars, hev⟩ := execute_returned h p f s hs hr
    have hs2 : (execute h p f).pass.mpScene = some s := (execute_mpScene h p f).trans hs
    have hc2 : (execute h p f).pass.mFrameCount < 2 ^ 32 := by
      rw [hcount]; exact Nat.mod_lt _ (by norm_num)
    have hok2 : ∀ r ∈ (executeAll h (execute h p f).pass fs).2, r.outcome = Outcome.returned :=
      fun r hr2 => hok r (by simp [executeAll, hr2])
    obtain ⟨ih1, ih2⟩ := ih (execute h p f).pass hs2 hc2 hok2
    refine ⟨?_, ?_⟩
    · show (executeAll h (execute h p f).pass fs).1.mFrameCount = _
      rw [ih1, hcount]
      simp only [List.length_cons]
      omega
    · intro k r hk
      cases k with
      | zero =>
        simp only [executeAll, List.getElem?_cons_zero, Option.some.injEq] at hk
        subst hk
        refine ⟨_, hvars, ?_, (execute h p f).pass.mTracer.pProgram.defines,
          (f.renderData.defaultTextureDims.1, f.renderData.defaultTextureDims.2, 1), ?_⟩
        · show some p.mFrameCount = some ((p.mFrameCount + 0) % 2 ^ 32)
          rw [Nat.add_zero, Nat.mod_eq_of_lt hc]
        · rw [hev]; simp
      | succ k =>
        simp only [executeAll, List.getElem?_cons_succ] at hk
        obtain ⟨v, hv1, hv2, hv3⟩ := ih2 k r hk
        refine ⟨v, hv1, ?_, hv3⟩
        rw [hv2, hcount]
        congr 1
        omega

theorem executeAll_returned (h : Helpers) (frames : List Frame) (p : Pass) (s : Scene)
    (hs : p.mpScene = some s)
    (hf : ∀ f ∈ frames, f.createVarsOk = true ∧ f.setShaderDataOk = true ∧
      0 < f.renderData.defaultTextureDims.1 ∧ 0 < f.renderData.defaultTextureDims.2) :
    ∀ r ∈ (executeAll h p frames).2, r.outcome = Outcome.returned := by
  induction frames generalizing p with
  | nil => intro r hr; simp [executeAll] at hr
  | cons f fs ih =>
    intro r hr
    simp only [executeAll, List.mem_cons] at hr
    obtain ⟨hc, hb, hx, hy⟩ := hf f (by simp)
    rcases hr with hr | hr
    · subst hr
      cases hv : p.mTracer.pVars with
      | some v => rw [execute_ready h p f s v hs hv, dispatch_ok _ _ _ _ _ _ hx hy]
      | none => rw [execute_build h p f s hs hv hc hb, dispatch_ok _ _ _ _ _ _ hx hy]
    · exact ih (execute h p f).pass ((execute_mpScene h p f).trans hs)
        (fun g hg => hf g (by simp [hg])) r hr

/-- Any number of copies of the example frame after binding the example scene:
every call succeeds and the counter is the number of calls modulo `2 ^ 32`. -/
theorem exampleRun (N : Nat) :
    (∀ r ∈ (executeAll exampleHelpers (setScene examplePass (some exampleScene)).1
        (List.replicate N exampleFrame)).2, r.outcome = Outcome.returned) ∧
    (executeAll exampleHelpers (setScene examplePass (some exampleScene)).1
        (List.replicate N exampleFrame)).1.mFrameCount = N % 2 ^ 32 := by
  have hok := executeAll_returned exampleHelpers (List.replicate N exampleFrame)
    (setScene examplePass (some exampleScene)).1 exampleScene rfl
    (fun f hf => by
      rw [List.eq_of_mem_replicate hf]
      exact ⟨rfl, rfl, by decide, by decide⟩)
  refine ⟨hok, ?_⟩
  have := (executeAll_frameCount exampleHelpers (List.replicate N exampleFrame)
    (setScene examplePass (some exampleScene)).1 exampleScene rfl (by decide) hok).1
  rw [this, List.length_replicate]
  show (0 + N) % 2 ^ 32 = N % 2 ^ 32
  rw [Nat.zero_add]

/-- C1 as stated fails: after `setScene` and `2 ^ 32` consecutive successful
`execute` calls the 32-bit frame counter is back at 0, not at `2 ^ 32`. -/
theorem C1_counterexample :
    (∀ r ∈ (executeAll exampleHelpers (setScene examplePass (some exampleScene)).1
        (List.replicate (2 ^ 32) exampleFrame)).2, r.outcome = Outcome.returned) ∧
    (List.replicate (2 ^ 32) exampleFrame).length = 2 ^ 32 ∧
    (executeAll exampleHelpers (setScene examplePass (some exampleScene)).1
        (List.replicate (2 ^ 32) exampleFrame)).1.mFrameCount = 0 ∧
    (executeAll exampleHelpers (setScene examplePass (some exampleScene)).1
        (List.replicate (2 ^ 32) exampleFrame)).1.mFrameCount ≠ 2 ^ 32 := by
  have hrun := exampleRun (2 ^ 32)
  rw [Nat.mod_self] at hrun
  refine ⟨hrun.1, List.length_replicate _ _, hrun.2, ?_⟩
  rw [hrun.2]
  norm_num

/-- C1 amended: after `setScene(S)` with a scene and `N` consecutive successful
`execute` calls, the frame count is `N` modulo `2 ^ 32`, and the `k`-th call
(from 0) dispatches with a variable set whose `gFrameCount` is `k` modulo
`2 ^ 32`; both are `N` and `k` themselves below `2 ^ 32`. -/
theorem C1_frameCount_counts_mod (h : Helpers) (p : Pass) (S : Scene) (frames : List Frame)
    (hok : ∀ r ∈ (executeAll h (setScene p (some S)).1 frames).2,
      r.outcome = Outcome.returned) :
    (executeAll h (setScene p (some S)).1 frames).2.length = frames.length ∧
    (executeAll h (setScene p (some S)).1 frames).1.mFrameCount = frames.length % 2 ^ 32 ∧
    (frames.length < 2 ^ 32 →
      (executeAll h (setScene p (some S)).1 frames).1.mFrameCount = frames.length) ∧
    ∀ k r, (executeAll h (setScene p (some S)).1 frames).2[k]? = some r →
      ∃ v, r.pass.mTracer.pVars = some v ∧ v.gFrameCount = some (k % 2 ^ 32) ∧
        (k < 2 ^ 32 → v.gFrameCount = some k) ∧
        ∃ d dim, Event.raytrace d v dim ∈ r.events := by
  have hmain := executeAll_frameCount h frames (setScene p (some S)).1 S rfl
    (by show 0 < 2 ^ 32; norm_num) hok
  have h0 : (setScene p (some S)).1.mFrameCount = 0 := rfl
  rw [h0] at hmain
  simp only [Nat.zero_add] at hmain
  refine ⟨executeAll_length h frames _, hmain.1, ?_, ?_⟩
  · intro hlt
    rw [hmain.1, Nat.mod_eq_of_lt hlt]
  · intro k r hk
    obtain ⟨v, hv1, hv2, hv3⟩ := hmain.2 k r hk
    exact ⟨v, hv1, hv2, fun hlt => by rw [hv2, Nat.mod_eq_of_lt hlt], hv3⟩

/-- Witness for the amended C1: three frames after binding the example scene. -/
theorem C1_frameCount_counts_mod_witness :
    (∀ r ∈ (executeAll exampleHelpers (setScene examplePass (some exampleScene)).1
        [exampleFrame, frameWithoutDebug, exampleFrame]).2, r.outcome = Outcome.returned) ∧
    (executeAll exampleHelpers (setScene examplePass (some exampleScene)).1
        [exampleFrame, frameWithoutDebug, exampleFrame]).1.mFrameCount = 3 :=
  ⟨by decide,
    (C1_frameCount_counts_mod exampleHelpers examplePass exampleScene
      [exampleFrame, frameWithoutDebug, exampleFrame] (by decide)).2.1⟩

/-- C8: starting from any pass (a freshly constructed one included), `setScene`
with a scene of `n >= 1` materials followed by one `execute` that succeeds (the
variable set builds, the target has positive size `(w, ht)`) leaves
`BILLBOARD_MATERIAL_ID` equal to the decimal text of `n - 1`, issues exactly one
ray dispatch, of extent `(w, ht, 1)`, and leaves the frame count at 1.  The
sample generator (framework code) is assumed not to define
`BILLBOARD_MATERIAL_ID`. -/
theorem C8_first_frame_after_setScene (h : Helpers) (p : Pass) (S : Scene) (f : Frame)
    (w ht : Nat)
    (hn : 1 ≤ S.getMaterialCount)
    (hdim : f.renderData.defaultTextureDims = (w, ht)) (hw : 0 < w) (hh : 0 < ht)
    (hc : f.createVarsOk = true) (hb : f.setShaderDataOk = true)
    (hsg : p.mpSampleGenerator.getDefines.get? "BILLBOARD_MATERIAL_ID" = none) :
    (execute h (setScene p (some S)).1 f).outcome = Outcome.returned ∧
    (execute h (setScene p (some S)).1 f).pass.mTracer.pProgram.defines.get?
        "BILLBOARD_MATERIAL_ID" = some (toString (S.getMaterialCount - 1)) ∧
    (∃ d v, (execute h (setScene p (some S)).1 f).events.filter Event.isRaytrace =
        [Event.raytrace d v (w, ht, 1)]) ∧
    (execute h (setScene p (some S)).1 f).pass.mFrameCount = 1 := by
  have hid : (setScene p (some S)).1.mLastMaterialId = S.getMaterialCount - 1 := by
    show uint32Sub S.getMaterialCount 1 = S.getMaterialCount - 1
    simp [uint32Sub, hn]
  have hx : 0 < f.renderData.defaultTextureDims.1 := by rw [hdim]; exact hw
  have hy : 0 < f.renderData.defaultTextureDims.2 := by rw [hdim]; exact hh
  have hok : (execute h (setScene p (some S)).1 f).outcome = Outcome.returned := by
    rw [execute_build h _ f S rfl rfl hc hb, dispatch_ok _ _ _ _ _ _ hx hy]
  obtain ⟨_, _, hcount, _, hev⟩ :=
    execute_returned h (setScene p (some S)).1 f S rfl hok
  refine ⟨hok, ?_, ?_, ?_⟩
  · rw [← hid]
    have hd : (setScene p (some S)).1.mOptionsChanged = true := rfl
    have hsg2 : (setScene p (some S)).1.mpSampleGenerator = p.mpSampleGenerator := rfl
    have hk : (synthesizeDefines h (setScene p (some S)).1 f.renderData).get?
        "BILLBOARD_MATERIAL_ID" = some (toString (setScene p (some S)).1.mLastMaterialId) := by
      simp [synthesizeDefines, DefineList.get?_add]
    exact execute_get?_of_synth h (setScene p (some S)).1 f "BILLBOARD_MATERIAL_ID"
      (toString (setScene p (some S)).1.mLastMaterialId) hd (by rw [hsg2]; exact hsg) hk
  · refine ⟨(execute h (setScene p (some S)).1 f).pass.mTracer.pProgram.defines,
      frameVars f.renderData (startVars (setScene p (some S)).1 S)
        (setScene p (some S)).1.mFrameCount, ?_⟩
    have hbe : buildEvents (setScene p (some S)).1 S = [Event.createVars S] := rfl
    rw [hev, hdim, hbe]
    rcases lightCollectionEvents_cases S with hl | hl <;>
      simp [hl, Event.isRaytrace, frameBindCalls_filter_isRaytrace]
  · rw [hcount]
    show (0 + 1) % 2 ^ 32 = 1
    norm_num

/-- Witness for C8: three materials give "2", one dispatch of extent (4, 2, 1). -/
theorem C8_first_frame_after_setScene_witness :
    1 ≤ exampleScene.getMaterialCount ∧
    (execute exampleHelpers (setScene examplePass (some exampleScene)).1 exampleFrame).outcome =
      Outcome.returned ∧
    (execute exampleHelpers (setScene examplePass (some exampleScene)).1
        exampleFrame).pass.mTracer.pProgram.defines.get? "BILLBOARD_MATERIAL_ID" = some "2" ∧
    (∃ d v, (execute exampleHelpers (setScene examplePass (some exampleScene)).1
        exampleFrame).events.filter Event.isRaytrace = [Event.raytrace d v (4, 2, 1)]) ∧
    (execute exampleHelpers (setScene examplePass (some exampleScene)).1
        exampleFrame).pass.mFrameCount = 1 :=
  have hw := C8_first_frame_after_setScene exampleHelpers examplePass exampleScene
    exampleFrame 4 2 (by decide) rfl (by decide) (by decide) rfl rfl (by decide)
  ⟨by decide, hw.1, hw.2.1, hw.2.2.1, hw.2.2.2⟩

/-- C6 as stated fails: after the sample generator failed to bind, the variable
set is not absent, and the next `execute` does not build again but dispatches
with the variable set whose sample generator data is unbound. -/
theorem C6_counterexample :
    (setScene examplePass (some exampleScene)).1.mpScene = some exampleScene ∧
    (setScene examplePass (some exampleScene)).1.mTracer.pVars = none ∧
    (execute exampleHelpers (setScene examplePass (some exampleScene)).1
      frameBindFails).outcome = Outcome.exception "Failed to bind sample generator" ∧
    (execute exampleHelpers (setScene examplePass (some exampleScene)).1
      frameBindFails).pass.mTracer.pVars ≠ none ∧
    buildCount (execute exampleHelpers
      (execute exampleHelpers (setScene examplePass (some exampleScene)).1
        frameBindFails).pass exampleFrame) = 0 ∧
    ((execute exampleHelpers
      (execute exampleHelpers (setScene examplePass (some exampleScene)).1
        frameBindFails).pass exampleFrame).events.filter Event.isRaytrace).length = 1 := by
  decide

/-- C6 amended: with a scene bound and the variable set absent, when the sample
generator cannot bind its data `execute` ends with a fatal error, issues no
dispatch and does not advance the frame count; the variable set created just
before the failing bind stays stored, so a following `execute` does not attempt
the build again and, given a target of positive size, dispatches with it. -/
theorem C6_failed_bind_is_fatal_and_keeps_vars (h : Helpers) (p : Pass) (f : Frame)
    (s : Scene)
    (hs : p.mpScene = some s) (hv : p.mTracer.pVars = none)
    (hc : f.createVarsOk = true) (hb : f.setShaderDataOk = false) :
    (execute h p f).outcome = Outcome.exception "Failed to bind sample generator" ∧
    (∀ e ∈ (execute h p f).events, e.isRaytrace = false) ∧
    (execute h p f).pass.mFrameCount = p.mFrameCount ∧
    (execute h p f).pass.mTracer.pVars = some (RtProgramVars.create s) ∧
    ∀ g : Frame,
      buildCount (execute h (execute h p f).pass g) = 0 ∧
      (0 < g.renderData.defaultTextureDims.1 → 0 < g.renderData.defaultTextureDims.2 →
        (execute h (execute h p f).pass g).outcome = Outcome.returned ∧
        ∃ d v dim, Event.raytrace d v dim ∈ (execute h (execute h p f).pass g).events ∧
          v.sampleGeneratorBound = false) := by
  have hvars : (execute h p f).pass.mTracer.pVars = some (RtProgramVars.create s) := by
    rw [execute_bindFails h p f s hs hv hc hb]; rfl
  have hscene : (execute h p f).pass.mpScene = some s := (execute_mpScene h p f).trans hs
  refine ⟨?_, ?_, ?_, hvars, ?_⟩
  · rw [execute_bindFails h p f s hs hv hc hb]
  · rw [execute_bindFails h p f s hs hv hc hb]
    intro e he
    simp only [List.mem_append, List.mem_singleton] at he
    rcases he with he | he
    · rw [lightCollectionEvents_mem s e he]; rfl
    · rw [he]; rfl
  · rw [execute_bindFails h p f s hs hv hc hb]
    exact updateDefines_mFrameCount h p _
  · intro g
    rw [execute_ready h _ g s _ hscene hvars]
    refine ⟨?_, ?_⟩
    · by_cases hxy : 0 < g.renderData.defaultTextureDims.1 ∧
          0 < g.renderData.defaultTextureDims.2
      · rw [dispatch_ok _ _ _ _ _ _ hxy.1 hxy.2]
        rcases lightCollectionEvents_cases s with hl | hl <;>
          simp [buildCount, hl, Event.isCreateVars, frameBindCalls_filter_isCreateVars]
      · rw [dispatch_fail _ _ _ _ _ _ hxy]
        rcases lightCollectionEvents_cases s with hl | hl <;>
          simp [buildCount, hl, Event.isCreateVars, frameBindCalls_filter_isCreateVars]
    · intro hx hy
      rw [dispatch_ok _ _ _ _ _ _ hx hy]
      refine ⟨rfl,
        (updateDefines h (execute h p f).pass g.renderData).mTracer.pProgram.defines,
        frameVars g.renderData (RtProgramVars.create s)
          (updateDefines h (execute h p f).pass g.renderData).mFrameCount,
        (g.renderData.defaultTextureDims.1, g.renderData.defaultTextureDims.2, 1), ?_, rfl⟩
      simp

/-- Witness for the amended C6 on the example scene. -/
theorem C6_failed_bind_is_fatal_and_keeps_vars_witness :
    (setScene examplePass (some exampleScene)).1.mpScene = some exampleScene ∧
    (setScene examplePass (some exampleScene)).1.mTracer.pVars = none ∧
    frameBindFails.createVarsOk = true ∧ frameBindFails.setShaderDataOk = false ∧
    (execute exampleHelpers (setScene examplePass (some exampleScene)).1
      frameBindFails).outcome = Outcome.exception "Failed to bind sample generator" ∧
    (execute exampleHelpers (setScene examplePass (some exampleScene)).1
      frameBindFails).pass.mFrameCount = 0 :=
  have hw := C6_failed_bind_is_fatal_and_keeps_vars exampleHelpers
    (setScene examplePass (some exampleScene)).1 frameBindFails exampleScene rfl rfl rfl rfl
  ⟨rfl, rfl, rfl, rfl, hw.1, hw.2.2.1⟩

/-- C7 as stated fails: a first frame binds `gDebug` to the texture of the `debug`
channel; in the next frame the resource table has no `debug` resource, and the
binding step neither skips the channel nor stays away from the missing resource:
it calls `asTexture` on the missing resource and assigns the result, so `gDebug`
is bound to the absent texture instead of keeping the texture of the first
frame. -/
theorem C7_counterexample :
    (execute exampleHelpers (setScene examplePass (some exampleScene)).1
      exampleFrame).pass.mpScene = some exampleScene ∧
    (execute exampleHelpers (setScene examplePass (some exampleScene)).1
      exampleFrame).pass.mTracer.pVars.bind (fun v => v.boundTexture "gDebug") =
        some (some (Texture.mk 11)) ∧
    frameWithoutDebug.renderData.getResource "debug" = none ∧
    (execute exampleHelpers
      (execute exampleHelpers (setScene examplePass (some exampleScene)).1 exampleFrame).pass
      frameWithoutDebug).outcome = Outcome.returned ∧
    Event.asTexture "debug" none ∈
      (execute exampleHelpers
        (execute exampleHelpers (setScene examplePass (some exampleScene)).1 exampleFrame).pass
        frameWithoutDebug).events ∧
    (execute exampleHelpers
      (execute exampleHelpers (setScene examplePass (some exampleScene)).1 exampleFrame).pass
      frameWithoutDebug).pass.mTracer.pVars.bind (fun v => v.boundTexture "gDebug") =
        some none := by
  decide

/-- C7 amended: with a scene bound and no resource supplied for a declared
channel, the binding step does not skip that channel and does go through the
missing resource: `asTexture` is called on the absent resource and its result is
assigned to the shader variable of the channel, whatever was bound there before;
that result is the absent texture, `asTexture` yielding none for an absent
resource; `execute` completes its dispatch, with that variable set, when the
variable set is there (or builds) and the target size is positive.  The only
channels `bind` skips are those with an empty shader variable name; every other
channel gets the call and the assignment whether or not its resource is
there. -/
theorem C7_unbound_channel_is_bound_absent (h : Helpers) (p : Pass) (f : Frame) (s : Scene)
    (ch : ChannelDesc)
    (hs : p.mpScene = some s)
    (hch : ch ∈ kInputChannels ++ kOutputChannels)
    (hres : f.renderData.getResource ch.name = none)
    (hbuild : p.mTracer.pVars = none → f.createVarsOk = true ∧ f.setShaderDataOk = true)
    (hx : 0 < f.renderData.defaultTextureDims.1)
    (hy : 0 < f.renderData.defaultTextureDims.2) :
    (execute h p f).outcome = Outcome.returned ∧
    Event.asTexture ch.name none ∈ (execute h p f).events ∧
    (∃ d v dim, Event.raytrace d v dim ∈ (execute h p f).events ∧
      (execute h p f).pass.mTracer.pVars = some v ∧
      v.boundTexture ch.texname = some (asTexture none)) ∧
    asTexture none = none ∧
    ∀ (st : RtProgramVars × List Event) (desc : ChannelDesc),
      (desc.texname = "" → bind f.renderData st desc = st) ∧
      (desc.texname ≠ "" → bind f.renderData st desc =
        ({ st.1 with
            textures := st.1.textures ++
              [(desc.texname, asTexture (f.renderData.getResource desc.name))] },
          st.2 ++ [Event.asTexture desc.name (f.renderData.getResource desc.name)])) := by
  have hr : (execute h p f).outcome = Outcome.returned := by
    cases hv : p.mTracer.pVars with
    | some v => rw [execute_ready h p f s v hs hv, dispatch_ok _ _ _ _ _ _ hx hy]
    | none =>
      rw [execute_build h p f s hs hv (hbuild hv).1 (hbuild hv).2,
        dispatch_ok _ _ _ _ _ _ hx hy]
  obtain ⟨_, _, _, hvars, hev⟩ := execute_returned h p f s hs hr
  simp only [kInputChannels, kOutputChannels, List.nil_append, List.mem_cons,
    List.mem_singleton, List.not_mem_nil, or_false] at hch
  refine ⟨hr, ?_, ⟨(execute h p f).pass.mTracer.pProgram.defines,
    frameVars f.renderData (startVars p s) p.mFrameCount,
    (f.renderData.defaultTextureDims.1, f.renderData.defaultTextureDims.2, 1), ?_, hvars, ?_⟩,
    rfl, ?_⟩
  · rw [hev]
    rcases hch with hch | hch <;> subst hch <;>
      simp [frameBindCalls, kInputChannels, kOutputChannels, hres] at hres ⊢
  · rw [hev]
    simp
  · rcases hch with hch | hch <;> subst hch <;>
      simp [RtProgramVars.boundTexture, frameVars, frameBindings, kInputChannels,
        kOutputChannels, hres] at hres ⊢
  · intro st desc
    refine ⟨fun he => ?_, fun hne => ?_⟩
    · simp [bind, he]
    · simp [bind, hne]

/-- Witness for the amended C7: the second frame of the run above, which has no
`debug` resource. -/
theorem C7_unbound_channel_is_bound_absent_witness :
    (execute exampleHelpers (setScene examplePass (some exampleScene)).1
      exampleFrame).pass.mpScene = some exampleScene ∧
    frameWithoutDebug.renderData.getResource "debug" = none ∧
    (execute exampleHelpers
      (execute exampleHelpers (setScene examplePass (some exampleScene)).1 exampleFrame).pass
      frameWithoutDebug).outcome = Outcome.returned ∧
    Event.asTexture "debug" none ∈
      (execute exampleHelpers
        (execute exampleHelpers (setScene examplePass (some exampleScene)).1 exampleFrame).pass
        frameWithoutDebug).events :=
  have hw := C7_unbound_channel_is_bound_absent exampleHelpers
    (execute exampleHelpers (setScene examplePass (some exampleScene)).1 exampleFrame).pass
    frameWithoutDebug exampleScene
    { name := "debug", texname := "gDebug", desc := "Debug information" }
    (by decide) (by decide) (by decide) (fun _ => ⟨rfl, rfl⟩) (by decide) (by decide)
  ⟨by decide, by decide, hw.1, hw.2.1⟩

/-! ## Variable-set builds over whole runs -/

theorem noScene_run (h : Helpers) (frames : List Frame) (p : Pass) (hs : p.mpScene = none) :
    ∀ r ∈ (executeAll h p frames).2, ∀ e ∈ r.events,
      e.isCreateVars = false ∧ e.isRaytrace = false := by
  induction frames generalizing p with
  | nil => intro r hr; simp [executeAll] at hr
  | cons f fs ih =>
    intro r hr
    simp only [executeAll, List.mem_cons] at hr
    rcases hr with hr | hr
    · subst hr
      rw [execute_noScene h p f hs]
      intro e he
      exact clearOutputs_quiet _ e he
    · exact ih (execute h p f).pass ((execute_mpScene h p f).trans hs) r hr

/-- Events of a successful `execute` with a bound scene: the number of builds and
the variable set every dispatch uses. -/
theorem execute_returned_events (h : Helpers) (p : Pass) (f : Frame) (s : Scene)
    (hs : p.mpScene = some s) (hr : (execute h p f).outcome = Outcome.returned) :
    buildCount (execute h p f) = (buildEvents p s).length ∧
    (∀ e ∈ (execute h p f).events, e.isCreateVars = true → e = Event.createVars s) ∧
    ∀ d v dim, Event.raytrace d v dim ∈ (execute h p f).events →
      v = frameVars f.renderData (startVars p s) p.mFrameCount := by
  obtain ⟨_, _, _, _, hev⟩ := execute_returned h p f s hs hr
  have hb : buildEvents p s = [] ∨ buildEvents p s = [Event.createVars s] := by
    unfold buildEvents; split
    · exact Or.inl rfl
    · exact Or.inr rfl
  refine ⟨?_, ?_, ?_⟩
  · unfold buildCount
    rw [hev]
    rcases lightCollectionEvents_cases s with hl | hl <;> rcases hb with hb | hb <;>
      simp [hl, hb, Event.isCreateVars, frameBindCalls_filter_isCreateVars]
  · intro e he hc
    rw [hev] at he
    simp only [List.mem_append, List.mem_singleton] at he
    rcases he with ((he | he) | he) | he
    · rw [lightCollectionEvents_mem s e he] at hc; cases hc
    · rcases hb with hb | hb <;> rw [hb] at he
      · cases he
      · simpa using he
    · obtain ⟨n, r, hnr⟩ := frameBindCalls_mem _ e he
      rw [hnr] at hc; cases hc
    · rw [he] at hc; cases hc
  · intro d v dim he
    rw [hev] at he
    simp only [List.mem_append, List.mem_singleton] at he
    rcases he with ((he | he) | he) | he
    · cases lightCollectionEvents_mem s _ he
    · rcases hb with hb | hb <;> rw [hb] at he
      · cases he
      · simp at he
    · obtain ⟨n, r, hnr⟩ := frameBindCalls_mem _ _ he
      cases hnr
    · cases he; rfl

theorem sum_map_eq_zero (rs : List ExecResult) (g : ExecResult → Nat)
    (hz : ∀ r ∈ rs, g r = 0) : (rs.map g).sum = 0 := by
  induction rs with
  | nil => rfl
  | cons r rest ih =>
    simp only [List.map_cons, List.sum_cons]
    rw [hz r (by simp), ih (fun x hx => hz x (by simp [hx]))]

/-- Consecutive successful calls on a pass whose variable set was built for the
bound scene: no further build, and every dispatch uses a set built for it. -/
theorem ready_run (h : Helpers) (frames : List Frame) (p : Pass) (s : Scene)
    (hs : p.mpScene = some s)
    (hv : ∃ v, p.mTracer.pVars = some v ∧ v.scene = s ∧ v.sampleGeneratorBound = true)
    (hok : ∀ r ∈ (executeAll h p frames).2, r.outcome = Outcome.returned) :
    ∀ r ∈ (executeAll h p frames).2, buildCount r = 0 ∧
      ∀ d v dim, Event.raytrace d v dim ∈ r.events →
        v.scene = s ∧ v.sampleGeneratorBound = true := by
  induction frames generalizing p with
  | nil => intro r hr; simp [executeAll] at hr
  | cons f fs ih =>
    obtain ⟨v0, hv0, hsc, hbd⟩ := hv
    have hr0 : (execute h p f).outcome = Outcome.returned := hok _ (by simp [executeAll])
    obtain ⟨_, _, _, hvars, _⟩ := execute_returned h p f s hs hr0
    obtain ⟨hbc, _, hray⟩ := execute_returned_events h p f s hs hr0
    have hstart : startVars p s = v0 := by simp [startVars, hv0]
    have hbe : buildEvents p s = [] := by simp [buildEvents, hv0]
    intro r hr
    simp only [executeAll, List.mem_cons] at hr
    rcases hr with hr | hr
    · subst hr
      refine ⟨by rw [hbc, hbe]; rfl, ?_⟩
      intro d v dim he
      rw [hray d v dim he, hstart]
      exact ⟨hsc, hbd⟩
    · refine ih (execute h p f).pass ((execute_mpScene h p f).trans hs) ?_
        (fun x hx => hok x (by simp [executeAll, hx])) r hr
      exact ⟨_, hvars, by rw [hstart]; exact hsc, by rw [hstart]; exact hbd⟩

/-- One segment: consecutive successful calls on a pass whose variable set is
absent, as `setScene` leaves it. -/
theorem segment_builds (h : Helpers) (q : Pass) (S : Option Scene) (frames : List Frame)
    (hS : q.mpScene = S) (hv : q.mTracer.pVars = none)
    (hok : ∀ r ∈ (executeAll h q frames).2, r.outcome = Outcome.returned) :
    ((executeAll h q frames).2.map buildCount).sum ≤ 1 ∧
    (∀ k r, (executeAll h q frames).2[k]? = some r → 0 < buildCount r →
      k = 0 ∧ S.isSome = true) ∧
    (∀ r0, (executeAll h q frames).2.head? = some r0 → S.isSome = true →
      buildCount r0 = 1) ∧
    (∀ r ∈ (executeAll h q frames).2, ∀ d v dim, Event.raytrace d v dim ∈ r.events →
      ∃ r0, (executeAll h q frames).2.head? = some r0 ∧
        Event.createVars v.scene ∈ r0.events ∧ S = some v.scene ∧
        v.sampleGeneratorBound = true) := by
  cases S with
  | none =>
    have hno := noScene_run h frames q hS
    have hzero : ∀ r ∈ (executeAll h q frames).2, buildCount r = 0 := by
      intro r hr
      unfold buildCount
      rw [List.length_eq_zero, List.filter_eq_nil_iff]
      intro e he
      rw [(hno r hr e he).1]
      simp
    refine ⟨by rw [sum_map_eq_zero _ _ hzero]; exact Nat.zero_le 1, ?_, ?_, ?_⟩
    · intro k r hk hpos
      have := hzero r (List.getElem?_mem hk)
      omega
    · intro r0 _ hsome; cases hsome
    · intro r hr d v dim he
      have := (hno r hr _ he).2
      cases this
  | some s =>
    cases frames with
    | nil =>
      refine ⟨by simp [executeAll], ?_, ?_, ?_⟩
      · intro k r hk; simp [executeAll] at hk
      · intro r0 hr0; simp [executeAll] at hr0
      · intro r hr; simp [executeAll] at hr
    | cons f fs =>
      have hr0 : (execute h q f).outcome = Outcome.returned := hok _ (by simp [executeAll])
      obtain ⟨_, _, _, hvars, hev⟩ := execute_returned h q f s hS hr0
      obtain ⟨hbc, _, hray⟩ := execute_returned_events h q f s hS hr0
      have hstart : startVars q s = { RtProgramVars.create s with sampleGeneratorBound := true } := by
        simp [startVars, hv]
      have hbe : buildEvents q s = [Event.createVars s] := by simp [buildEvents, hv]
      have hb1 : buildCount (execute h q f) = 1 := by rw [hbc, hbe]; rfl
      have hcreate : Event.createVars s ∈ (execute h q f).events := by
        rw [hev, hbe]; simp
      have hrest := ready_run h fs (execute h q f).pass s ((execute_mpScene h q f).trans hS)
        ⟨_, hvars, by rw [hstart]; rfl, by rw [hstart]; rfl⟩
        (fun x hx => hok x (by simp [executeAll, hx]))
      refine ⟨?_, ?_, ?_, ?_⟩
      · simp only [executeAll, List.map_cons, List.sum_cons]
        rw [hb1, sum_map_eq_zero _ _ (fun r hr => (hrest r hr).1)]
      · intro k r hk hpos
        cases k with
        | zero => exact ⟨rfl, rfl⟩
        | succ k =>
          simp only [executeAll, List.getElem?_cons_succ] at hk
          have := (hrest r (List.getElem?_mem hk)).1
          omega
      · intro r0 hr0 _
        simp only [executeAll, List.head?_cons, Option.some.injEq] at hr0
        rw [← hr0]; exact hb1
      · intro r hr d v dim he
        refine ⟨execute h q f, by simp [executeAll], ?_⟩
        simp only [executeAll, List.mem_cons] at hr
        rcases hr with hr | hr
        · subst hr
          have hveq := hray d v dim he
          have hsc : v.scene = s := by rw [hveq, hstart]; rfl
          have hbd : v.sampleGeneratorBound = true := by rw [hveq, hstart]; rfl
          rw [hsc]
          exact ⟨hcreate, rfl, hbd⟩
        · obtain ⟨hsc, hbd⟩ := (hrest r hr).2 d v dim he
          rw [hsc]
          exact ⟨hcreate, rfl, hbd⟩

/-- C9: in every run of the pass (some initial `execute` calls with no scene set
yet, then any number of `setScene` calls each followed by `execute` calls) in
which every `execute` succeeds: before the first `setScene` nothing is built or
dispatched; between two consecutive `setScene` calls the variable set is built
at most once, only in the first `execute` and only when the scene is present
(and then exactly once there); every ray dispatch uses a variable set that was
created in the first `execute` after the latest `setScene`, for the scene that
call bound, with the sample generator data bound. -/
theorem C9_builds_once_per_scene (h : Helpers) (p0 : Pass) (frames0 : List Frame)
    (segs : List (Option Scene × List Frame))
    (h0 : p0.mpScene = none)
    (hok : ∀ seg ∈ runSegments h (executeAll h p0 frames0).1 segs,
      ∀ r ∈ seg.2, r.outcome = Outcome.returned) :
    (∀ r ∈ (executeAll h p0 frames0).2, ∀ e ∈ r.events,
      e.isCreateVars = false ∧ e.isRaytrace = false) ∧
    ∀ seg ∈ runSegments h (executeAll h p0 frames0).1 segs,
      (seg.2.map buildCount).sum ≤ 1 ∧
      (∀ k r, seg.2[k]? = some r → 0 < buildCount r → k = 0 ∧ seg.1.isSome = true) ∧
      (∀ r0, seg.2.head? = some r0 → seg.1.isSome = true → buildCount r0 = 1) ∧
      (∀ r ∈ seg.2, ∀ d v dim, Event.raytrace d v dim ∈ r.events →
        ∃ r0, seg.2.head? = some r0 ∧ Event.createVars v.scene ∈ r0.events ∧
          seg.1 = some v.scene ∧ v.sampleGeneratorBound = true) := by
  refine ⟨noScene_run h frames0 p0 h0, ?_⟩
  generalize (executeAll h p0 frames0).1 = p at hok ⊢
  induction segs generalizing p with
  | nil => intro seg hseg; simp [runSegments] at hseg
  | cons sg rest ih =>
    intro seg hseg
    simp only [runSegments, List.mem_cons] at hseg
    rcases hseg with hseg | hseg
    · subst hseg
      have hS : (setScene p sg.1).1.mpScene = sg.1 := by cases sg.1 <;> rfl
      have hv : (setScene p sg.1).1.mTracer.pVars = none := by cases sg.1 <;> rfl
      exact segment_builds h (setScene p sg.1).1 sg.1 sg.2 hS hv
        (hok (sg.1, (executeAll h (setScene p sg.1).1 sg.2).2) (by simp [runSegments]))
    · exact ih _ (fun x hx => hok x (by simp [runSegments, hx])) seg hseg

/-- Witness for C9: one frame before any scene, then a scene with two frames, no
scene with one frame, and the scene again with one frame; the builds per
segment are 1, 0 and 1. -/
theorem C9_builds_once_per_scene_witness :
    examplePass.mpScene = none ∧
    (∀ seg ∈ runSegments exampleHelpers (executeAll exampleHelpers examplePass [exampleFrame]).1
        [(some exampleScene, [exampleFrame, frameWithoutDebug]), (none, [exampleFrame]),
          (some exampleScene, [exampleFrame])],
      ∀ r ∈ seg.2, r.outcome = Outcome.returned) ∧
    (∀ seg ∈ runSegments exampleHelpers (executeAll exampleHelpers examplePass [exampleFrame]).1
        [(some exampleScene, [exampleFrame, frameWithoutDebug]), (none, [exampleFrame]),
          (some exampleScene, [exampleFrame])],
      (seg.2.map buildCount).sum ≤ 1) ∧
    (runSegments exampleHelpers (executeAll exampleHelpers examplePass [exampleFrame]).1
        [(some exampleScene, [exampleFrame, frameWithoutDebug]), (none, [exampleFrame]),
          (some exampleScene, [exampleFrame])]).map
      (fun seg => (seg.2.map buildCount).sum) = [1, 0, 1] :=
  ⟨rfl, by decide,
    fun seg hseg =>
      ((C9_builds_once_per_scene exampleHelpers examplePass [exampleFrame]
        [(some exampleScene, [exampleFrame, frameWithoutDebug]), (none, [exampleFrame]),
          (some exampleScene, [exampleFrame])] rfl (by decide)).2 seg hseg).1,
    by decide⟩

end BillboardRayTracer
